import Mathlib

/-!
Verification of `src/App.js` (personal portfolio page): the defensive
MetaMask compatibility shim (`setupMetaMaskStub`) and the gallery view's
fullscreen-image selection state machine.

The JS source is shallowly embedded: JS values relevant to the claims
become Lean inductives/structures, JS exceptions become `Except`, the
browser environment (the `window.ethereum` slot and the points where an
assignment to it could throw) becomes an explicit `Env` record, and
`console.warn` diagnostics emitted by the shim are counted explicitly.
-/

namespace Portfolio

/-! ## Compatibility shim (`setupMetaMaskStub`, App.js lines 12-56) -/

/-- A JS exception / rejected-promise value, abstracted to its message. -/
structure JsError where
  msg : String
deriving Repr, DecidableEq

/-- The argument bundle passed to `ethereum.request({ method: ... })`.
The `method` field may be absent (`undefined`), hence `Option String`. -/
structure ReqArgs where
  method : Option String
deriving Repr, DecidableEq

/-- Values returned by a request operation: an array of account strings,
JS `null`, or some other opaque value. -/
inductive EthValue where
  | arr (accounts : List String)
  | nullv
  | other (tag : String)
deriving Repr, DecidableEq

/-- A request operation: takes a possibly-missing argument bundle and
yields either a value or a raised error, together with the number of
`[meta-stub]` console warnings emitted during the call. -/
def ReqFun : Type := Option ReqArgs → (Except JsError EthValue) × Nat

/-- The stub's `request` (App.js lines 21-27): logs one warning, returns
`[]` when `args && args.method === "eth_requestAccounts"`, otherwise
`null`; it never raises (the `Except` component is always `.ok`). -/
def stubRequest : ReqFun := fun args =>
  match args with
  | some a =>
      if a.method = some "eth_requestAccounts" then (.ok (.arr []), 1)
      else (.ok .nullv, 1)
  | none => (.ok .nullv, 1)

/-- The wrapper installed around an existing provider's `request`
(App.js lines 38-47): forward to the original; on a raised error, log one
warning and return the fallback (`[]` for `eth_requestAccounts`,
otherwise `null`) instead of re-raising. -/
def wrapRequest (originalRequest : ReqFun) : ReqFun := fun args =>
  match originalRequest args with
  | (.ok v, n) => (.ok v, n)
  | (.error _, n) =>
      match args with
      | some a =>
          if a.method = some "eth_requestAccounts" then (.ok (.arr []), n + 1)
          else (.ok .nullv, n + 1)
      | none => (.ok .nullv, n + 1)

/-- The `window.ethereum` provider object, with the fields the shim
touches.  `request` is `none` when the object has no (truthy) `request`
property.  `requestSlotFrozen` models a provider whose `request` property
cannot be assigned (the assignment at App.js line 38 would then throw). -/
structure Provider where
  isMetaMask : Bool
  request : Option ReqFun
  requestSlotFrozen : Bool

/-- The browser environment seen by the shim: the `window.ethereum` slot,
and whether assigning that slot throws (e.g. a non-writable property
installed by another extension — the failure the outer `try` guards). -/
structure Env where
  ethereum : Option Provider
  ethereumSlotFrozen : Bool

/-- The stub provider installed in Case A (App.js lines 18-31). -/
def stubProvider : Provider :=
  { isMetaMask := false
    request := some stubRequest
    requestSlotFrozen := false }

/-- The body of the `try` block of `setupMetaMaskStub` (App.js lines
16-48): install the stub when no provider exists, wrap `request` when a
provider with a `request` exists, otherwise do nothing.  Assignments to a
frozen slot raise. -/
def setupBody (env : Env) : Except JsError Env :=
  match env.ethereum with
  | none =>
      if env.ethereumSlotFrozen then
        .error ⟨"Cannot assign to read only property ethereum"⟩
      else
        .ok { env with ethereum := some stubProvider }
  | some p =>
      match p.request with
      | some originalRequest =>
          if p.requestSlotFrozen then
            .error ⟨"Cannot assign to read only property request"⟩
          else
            .ok { env with
                    ethereum := some { p with request := some (wrapRequest originalRequest) } }
      | none => .ok env

/-- `setupMetaMaskStub` (App.js lines 12-53): the body runs inside a
`try`/`catch` whose handler logs one warning and swallows the error.  The
returned `Nat` counts the warnings logged by this failure boundary. -/
def setupMetaMaskStub (env : Env) : Env × Nat :=
  match setupBody env with
  | .ok env2 => (env2, 0)
  | .error _ => (env, 1)

/-! ## Gallery view: catalogue, selection state, overlay (App.js 58-379) -/

/-- A catalogue entry of the main "My Work" grid (App.js lines 69-73). -/
structure Item where
  id : Nat
  caption : String
  image : String
deriving Repr, DecidableEq

/-- The literal `items` list (App.js lines 69-73). -/
def items : List Item :=
  [ { id := 1, caption := "porsche 991 poster", image := "images/porsche.png" },
    { id := 2, caption := "porsche 991 poster", image := "images/porsche 2.jpg" } ]

/-- The JS object stored by `setFullscreenImage`.  Main-grid tiles store
the whole catalogue item (so its `id` field comes along, modelled as
`some id`); section tiles build a fresh `{ image, caption }` literal
(modelled with `id := none`). -/
structure Sel where
  image : String
  caption : String
  id : Option Nat
deriving Repr, DecidableEq

/-- The selection state: `fullscreenImage` is `null` (`none`, Idle) or an
object (`some`, Viewing). -/
abbrev SelState : Type := Option Sel

/-- Image filenames of the "Cat in a Box" grid (App.js line 182). -/
def catImgs : List String := ["1.png", "2.png", "3.png", "4.png", "5.png"]

/-- Image filenames of the "Chai Mahal" grid (App.js line 216). -/
def chaiImgs : List String :=
  ["w1.png", "w2.png", "w3.png", "w4.png", "w5.png", "w6.png", "w7.png"]

/-- Image filenames of the "Harvest Connect" grid (App.js lines 250-254). -/
def harvestImgs : List String :=
  [ "Screenshot 2025-08-15 151613.png",
    "Screenshot 2025-08-15 151629.png",
    "Screenshot 2025-08-15 151703.png" ]

/-- Image filenames of the "Tools" grid (App.js lines 298-301). -/
def toolImgs : List String := ["download  (2).png", "download (3).jpg"]

/-- One clickable tile of the page, addressed by its grid and index. -/
inductive Tile where
  | mainTile (i : Nat)
  | catTile (i : Nat)
  | chaiTile (i : Nat)
  | harvestTile (i : Nat)
  | toolTile (i : Nat)
deriving Repr, DecidableEq

/-- A tile index actually rendered by `App` (within its list's bounds). -/
def Tile.valid : Tile → Prop
  | .mainTile i => i < items.length
  | .catTile i => i < catImgs.length
  | .chaiTile i => i < chaiImgs.length
  | .harvestTile i => i < harvestImgs.length
  | .toolTile i => i < toolImgs.length

instance : DecidablePred Tile.valid := by
  intro t
  cases t <;> simp [Tile.valid] <;> infer_instance

/-- The value each tile's `onClick` passes to `setFullscreenImage`
(App.js lines 78, 187, 221, 259, 306); `none` for an index never
rendered. -/
def Tile.payload : Tile → Option Sel
  | .mainTile i =>
      (items.get? i).map fun item => ⟨item.image, item.caption, some item.id⟩
  | .catTile i =>
      (catImgs.get? i).map fun img =>
        ⟨"images/Cat in a Box/" ++ img, "Cat in a Box - Design " ++ toString (i + 1), none⟩
  | .chaiTile i =>
      (chaiImgs.get? i).map fun img =>
        ⟨"images/Chai Mahal/" ++ img, "Chai Mahal - Design " ++ toString (i + 1), none⟩
  | .harvestTile i =>
      (harvestImgs.get? i).map fun img =>
        ⟨"images/Harvest Connect/" ++ img, "Harvest Connect - Screen " ++ toString (i + 1), none⟩
  | .toolTile i =>
      (toolImgs.get? i).map fun img =>
        ⟨"images/tools/" ++ img, "tool " ++ toString (i + 1), none⟩

/-- The `src` attribute declared on each tile's `<img>` element (App.js
lines 81, 190, 224, 262, 309). -/
def Tile.declSrc : Tile → Option String
  | .mainTile i => (items.get? i).map fun item => item.image
  | .catTile i => (catImgs.get? i).map fun img => "images/Cat in a Box/" ++ img
  | .chaiTile i => (chaiImgs.get? i).map fun img => "images/Chai Mahal/" ++ img
  | .harvestTile i => (harvestImgs.get? i).map fun img => "images/Harvest Connect/" ++ img
  | .toolTile i => (toolImgs.get? i).map fun img => "images/tools/" ++ img

/-- All rendered tiles of the page, in document order. -/
def allTiles : List Tile :=
  ((List.range items.length).map Tile.mainTile) ++
  ((List.range catImgs.length).map Tile.catTile) ++
  ((List.range chaiImgs.length).map Tile.chaiTile) ++
  ((List.range harvestImgs.length).map Tile.harvestTile) ++
  ((List.range toolImgs.length).map Tile.toolTile)

/-! ### Image-load-error placeholders (the `onError` handlers) -/

/-- The SVG markup built by the main-grid `onError` handler (App.js lines
86-88); its text node embeds `Image ${item.id}`. -/
def mainPlaceholderSvg (item : Item) : String :=
  "<svg xmlns='http://www.w3.org/2000/svg' viewBox='0 0 600 800'>" ++
  "<rect width='600' height='800' fill='%23262224'/>" ++
  "<text x='50%' y='50%' dominant-baseline='middle' text-anchor='middle' " ++
  "fill='white' fill-opacity='0.5' " ++
  "font-family='Inter, Helvetica Neue, Arial, sans-serif' font-size='28'>" ++
  "Image " ++ toString item.id ++ "</text></svg>"

/-- The SVG markup built by the section-grid `onError` handlers (App.js
lines 194-196, 228-230, 266-268): the text node is the fixed section
label, with no per-item data. -/
def sectionPlaceholderSvg (label : String) : String :=
  "<svg xmlns='http://www.w3.org/2000/svg' viewBox='0 0 600 800'>" ++
  "<rect width='600' height='800' fill='%23262224'/>" ++
  "<text x='50%' y='50%' dominant-baseline='middle' text-anchor='middle' " ++
  "fill='white' fill-opacity='0.5' " ++
  "font-family='Inter, Helvetica Neue, Arial, sans-serif' font-size='28'>" ++
  label ++ "</text></svg>"

/-- The SVG markup built by the Tools `onError` handler (App.js lines
313-315): a 100x100 box whose text node is the fixed string `Tool`. -/
def toolPlaceholderSvg : String :=
  "<svg xmlns='http://www.w3.org/2000/svg' viewBox='0 0 100 100'>" ++
  "<rect width='100' height='100' fill='%23262224'/>" ++
  "<text x='50%' y='50%' dominant-baseline='middle' text-anchor='middle' " ++
  "fill='white' fill-opacity='0.5' " ++
  "font-family='Inter, Helvetica Neue, Arial, sans-serif' font-size='12'>" ++
  "Tool</text></svg>"

/-- The SVG markup substituted as the tile's `src` by its `onError`
handler; `none` for an index never rendered. -/
def Tile.errorPlaceholderSvg : Tile → Option String
  | .mainTile i => (items.get? i).map fun item => mainPlaceholderSvg item
  | .catTile i => (catImgs.get? i).map fun _ => sectionPlaceholderSvg "Cat in a Box"
  | .chaiTile i => (chaiImgs.get? i).map fun _ => sectionPlaceholderSvg "Chai Mahal"
  | .harvestTile i => (harvestImgs.get? i).map fun _ => sectionPlaceholderSvg "Harvest Connect"
  | .toolTile i => (toolImgs.get? i).map fun _ => toolPlaceholderSvg

/-- `s` contains `pat` as a substring. -/
def strContains (s pat : String) : Prop :=
  pat.toList <:+: s.toList

instance (s pat : String) : Decidable (strContains s pat) :=
  inferInstanceAs (Decidable (pat.toList <:+: s.toList))

/-- The `src` each tile's `<img>` displays, given which tiles have fired
their load-error handler: the declared path normally, the generated
placeholder after an error.  (`onError` rewrites only `e.target.src`.) -/
def renderSrc (errored : Tile → Bool) (t : Tile) : Option String :=
  if errored t then t.errorPlaceholderSvg else t.declSrc

/-! ### Events and the selection step function -/

/-- A discrete user/renderer event the selection state reacts to. -/
inductive Event where
  | tileClick (t : Tile)
  | backdropClick
  | closeClick
  | imageClick
  | imgError (t : Tile)

/-- One synchronous reaction of `App`'s state to an event: tile clicks
call `setFullscreenImage(payload)` (App.js 78, 187, 221, 259, 306),
backdrop/close clicks call `setFullscreenImage(null)` (App.js 351, 356),
a click on the enlarged image only calls `e.stopPropagation()` (App.js
368), and an image-load error touches no state (App.js 84-89). -/
def step (st : SelState) : Event → SelState
  | .tileClick t => match t.payload with
      | some s => some s
      | none => st
  | .backdropClick => none
  | .closeClick => none
  | .imageClick => st
  | .imgError _ => st

/-! ### Overlay click dispatch with DOM bubbling (App.js 348-377)

A physical click lands on a region of the overlay and bubbles outward
through the React handler chain; a handler that calls
`e.stopPropagation()` stops the chain.  The enlarged image's handler
(line 368) only stops propagation; the close button's handler (line 356)
sets the state to `null` and does NOT stop propagation, so the click then
also reaches the backdrop handler (line 351). -/

/-- A handler in a bubbling chain: a state action plus whether it calls
`stopPropagation`. -/
structure Handler where
  act : SelState → SelState
  stops : Bool

/-- Run a bubbling chain from innermost handler outward. -/
def runBubble : List Handler → SelState → SelState
  | [], st => st
  | h :: rest, st =>
      let st2 := h.act st
      if h.stops then st2 else runBubble rest st2

/-- The interactive region of the overlay a click physically lands on. -/
inductive OverlayRegion where
  | enlargedImage
  | closeButton
  | backdrop

/-- The handler chain a click at the given region bubbles through. -/
def overlayChain : OverlayRegion → List Handler
  | .enlargedImage =>
      [ { act := fun st => st, stops := true },
        { act := fun _ => none, stops := false } ]
  | .closeButton =>
      [ { act := fun _ => none, stops := false },
        { act := fun _ => none, stops := false } ]
  | .backdrop =>
      [ { act := fun _ => none, stops := false } ]

/-- Net effect on the selection state of a click at a region of the
overlay (which is only rendered while the state is Viewing). -/
def overlayClick (r : OverlayRegion) (st : SelState) : SelState :=
  runBubble (overlayChain r) st

/-- The text node embedded in each tile's load-error placeholder: the
item's numeric id rendered as `Image ${item.id}` for main-grid tiles
(App.js line 87), and the grid's fixed label for the section grids
(App.js lines 195, 229, 267, 314). -/
def Tile.errorLabel : Tile → Option String
  | .mainTile i => (items.get? i).map fun item => "Image " ++ toString item.id
  | .catTile i => (catImgs.get? i).map fun _ => "Cat in a Box"
  | .chaiTile i => (chaiImgs.get? i).map fun _ => "Chai Mahal"
  | .harvestTile i => (harvestImgs.get? i).map fun _ => "Harvest Connect"
  | .toolTile i => (toolImgs.get? i).map fun _ => "Tool"

/-! ## Shared helper lemmas -/

theorem mem_allTiles_of_valid (t : Tile) (h : t.valid) : t ∈ allTiles := by
  cases t <;>
    simp only [allTiles, List.mem_append, List.mem_map, List.mem_range] <;>
    [ exact Or.inl (Or.inl (Or.inl (Or.inl ⟨_, h, rfl⟩)));
      exact Or.inl (Or.inl (Or.inl (Or.inr ⟨_, h, rfl⟩)));
      exact Or.inl (Or.inl (Or.inr ⟨_, h, rfl⟩));
      exact Or.inl (Or.inr ⟨_, h, rfl⟩);
      exact Or.inr ⟨_, h, rfl⟩ ]

/-- Distinct rendered tiles pass distinct values to `setFullscreenImage`
(checked by evaluation over all 19 tiles of the page). -/
theorem payload_pairwise_ne :
    allTiles.Pairwise (fun a b => a.payload ≠ b.payload) := by decide

theorem payload_ne_of_valid_ne (t1 t2 : Tile) (h1 : t1.valid) (h2 : t2.valid)
    (hne : t1 ≠ t2) : t1.payload ≠ t2.payload :=
  payload_pairwise_ne.forall (by intro a b hab e; exact hab e.symm)
    (mem_allTiles_of_valid t1 h1) (mem_allTiles_of_valid t2 h2) hne

/-- A rendered tile's click payload exists and its `image` field is the
very path declared as the tile's `<img src>`. -/
theorem payload_declSrc_of_valid (t : Tile) (h : t.valid) :
    ∃ s : Sel, t.payload = some s ∧ some s.image = t.declSrc := by
  cases t with
  | mainTile i =>
      obtain ⟨it, hit⟩ : ∃ it, items[i]? = some it := ⟨_, List.getElem?_eq_getElem h⟩
      exact ⟨⟨it.image, it.caption, some it.id⟩,
        by simp [Tile.payload, hit], by simp [Tile.declSrc, hit]⟩
  | catTile i =>
      obtain ⟨im, him⟩ : ∃ im, catImgs[i]? = some im := ⟨_, List.getElem?_eq_getElem h⟩
      exact ⟨⟨"images/Cat in a Box/" ++ im, "Cat in a Box - Design " ++ toString (i + 1), none⟩,
        by simp [Tile.payload, him], by simp [Tile.declSrc, him]⟩
  | chaiTile i =>
      obtain ⟨im, him⟩ : ∃ im, chaiImgs[i]? = some im := ⟨_, List.getElem?_eq_getElem h⟩
      exact ⟨⟨"images/Chai Mahal/" ++ im, "Chai Mahal - Design " ++ toString (i + 1), none⟩,
        by simp [Tile.payload, him], by simp [Tile.declSrc, him]⟩
  | harvestTile i =>
      obtain ⟨im, him⟩ : ∃ im, harvestImgs[i]? = some im := ⟨_, List.getElem?_eq_getElem h⟩
      exact ⟨⟨"images/Harvest Connect/" ++ im, "Harvest Connect - Screen " ++ toString (i + 1), none⟩,
        by simp [Tile.payload, him], by simp [Tile.declSrc, him]⟩
  | toolTile i =>
      obtain ⟨im, him⟩ : ∃ im, toolImgs[i]? = some im := ⟨_, List.getElem?_eq_getElem h⟩
      exact ⟨⟨"images/tools/" ++ im, "tool " ++ toString (i + 1), none⟩,
        by simp [Tile.payload, him], by simp [Tile.declSrc, him]⟩

/-! ## Claim theorems -/

/-- C1: when no provider global exists the installed stub's request
operation never raises; it returns the empty array exactly when the
argument bundle is present with method `eth_requestAccounts`, and `null`
for any other bundle, including a missing one. -/
theorem stub_request_fallback_spec (args : Option ReqArgs) :
    (∀ e : JsError, (stubRequest args).1 ≠ .error e) ∧
    ((∃ a, args = some a ∧ a.method = some "eth_requestAccounts") →
      (stubRequest args).1 = .ok (.arr [])) ∧
    ((∀ a, args = some a → a.method ≠ some "eth_requestAccounts") →
      (stubRequest args).1 = .ok .nullv) := by
  cases args with
  | none =>
      exact ⟨by simp [stubRequest], fun ⟨a, ha, _⟩ => by simp at ha, fun _ => rfl⟩
  | some a =>
      by_cases hm : a.method = some "eth_requestAccounts"
      · refine ⟨by simp [stubRequest, hm], fun _ => by simp [stubRequest, hm], ?_⟩
        intro hn
        exact absurd hm (hn a rfl)
      · refine ⟨by simp [stubRequest, hm], ?_, fun _ => by simp [stubRequest, hm]⟩
        rintro ⟨a2, ha2, hm2⟩
        rw [Option.some.injEq] at ha2
        exact absurd (ha2 ▸ hm2) hm

/-- Witness for C1 at the account-request method. -/
theorem stub_request_fallback_spec_witness :
    (stubRequest (some ⟨some "eth_requestAccounts"⟩)).1 = .ok (.arr []) :=
  (stub_request_fallback_spec (some ⟨some "eth_requestAccounts"⟩)).2.1
    ⟨⟨some "eth_requestAccounts"⟩, rfl, rfl⟩

/-- C2: when the existing provider's request raises on an input, the
wrapped request returns the fallback instead of raising (`[]` for
`eth_requestAccounts`, otherwise `null`) and logs exactly one diagnostic
warning for that invocation. -/
theorem wrapped_request_catches (originalRequest : ReqFun) (args : Option ReqArgs)
    (err : JsError) (h : originalRequest args = (.error err, 0)) :
    wrapRequest originalRequest args =
      ((.ok (match args with
             | some a =>
                 if a.method = some "eth_requestAccounts" then EthValue.arr []
                 else EthValue.nullv
             | none => EthValue.nullv) : Except JsError EthValue), 1) := by
  simp only [wrapRequest, h]
  cases args with
  | none => rfl
  | some a => by_cases hm : a.method = some "eth_requestAccounts" <;> simp [hm]

/-- Witness for C2: a provider whose request always raises, invoked with
the account-request method, yields the empty array and one warning. -/
theorem wrapped_request_catches_witness :
    wrapRequest (fun _ => (.error ⟨"boom"⟩, 0)) (some ⟨some "eth_requestAccounts"⟩) =
      (.ok (.arr []), 1) :=
  wrapped_request_catches (fun _ => (.error ⟨"boom"⟩, 0))
    (some ⟨some "eth_requestAccounts"⟩) ⟨"boom"⟩ rfl

/-- C3: clicking any rendered tile while Idle yields Viewing of a value
whose image path is exactly the tile's declared `<img src>` path (and
whose caption is the tile's declared caption, the payload being built
from the same tile data), and no other rendered tile's payload equals
that value. -/
theorem tile_click_selects_exactly (t : Tile) (h : t.valid) :
    ∃ s : Sel, step none (.tileClick t) = some s ∧
      t.payload = some s ∧
      some s.image = t.declSrc ∧
      ∀ t2 : Tile, t2.valid → t2 ≠ t → t2.payload ≠ some s := by
  obtain ⟨s, hp, hd⟩ := payload_declSrc_of_valid t h
  refine ⟨s, by simp [step, hp], hp, hd, ?_⟩
  intro t2 h2 hne hc
  exact payload_ne_of_valid_ne t2 t h2 h hne (hc.trans hp.symm)

/-- Witness for C3 at the first Harvest Connect tile. -/
theorem tile_click_selects_exactly_witness :
    Tile.valid (Tile.harvestTile 0) ∧
    ∃ s : Sel, step none (.tileClick (Tile.harvestTile 0)) = some s ∧
      (Tile.harvestTile 0).payload = some s ∧
      some s.image = (Tile.harvestTile 0).declSrc ∧
      ∀ t2 : Tile, t2.valid → t2 ≠ Tile.harvestTile 0 → t2.payload ≠ some s :=
  ⟨by decide, tile_click_selects_exactly (Tile.harvestTile 0) (by decide)⟩

/-- C4: while Viewing, a click landing on the enlarged image bubbles into
a handler that only stops propagation, so the state is unchanged; a click
on the backdrop, or on the close control (whose click also bubbles on to
the backdrop), sets the state to Idle. -/
theorem overlay_click_containment (v : Sel) :
    overlayClick .enlargedImage (some v) = some v ∧
    overlayClick .backdrop (some v) = none ∧
    overlayClick .closeButton (some v) = none :=
  ⟨rfl, rfl, rfl⟩

/-- C5: dismissing (backdrop or close click) always yields Idle, is a
no-op when already Idle, and any sequence of tile clicks followed by one
dismiss ends in Idle. -/
theorem dismiss_idempotent_to_idle :
    (∀ st : SelState, step st .backdropClick = none ∧ step st .closeClick = none) ∧
    step (none : SelState) .backdropClick = none ∧
    step (none : SelState) .closeClick = none ∧
    ∀ (clicks : List Tile) (st : SelState),
      List.foldl step st (clicks.map Event.tileClick ++ [Event.backdropClick]) = none := by
  refine ⟨fun st => ⟨rfl, rfl⟩, rfl, rfl, fun clicks st => ?_⟩
  rw [List.foldl_append]
  rfl

/-- C6: clicking two distinct rendered tiles in succession leaves the
selection at exactly the second tile's payload; the first tile's payload
is not the final state. -/
theorem second_click_wins (t1 t2 : Tile) (h1 : t1.valid) (h2 : t2.valid)
    (hne : t1 ≠ t2) :
    ∃ s2 : Sel, t2.payload = some s2 ∧
      step (step none (.tileClick t1)) (.tileClick t2) = some s2 ∧
      step none (.tileClick t2) = some s2 ∧
      t1.payload ≠ some s2 := by
  obtain ⟨s2, hp2, _⟩ := payload_declSrc_of_valid t2 h2
  refine ⟨s2, hp2, by simp [step, hp2], by simp [step, hp2], ?_⟩
  intro hc
  exact payload_ne_of_valid_ne t1 t2 h1 h2 hne (hc.trans hp2.symm)

/-- Witness for C6: first Cat in a Box tile then first Chai Mahal tile. -/
theorem second_click_wins_witness :
    Tile.valid (Tile.catTile 0) ∧ Tile.valid (Tile.chaiTile 0) ∧
    Tile.catTile 0 ≠ Tile.chaiTile 0 ∧
    ∃ s2 : Sel, (Tile.chaiTile 0).payload = some s2 ∧
      step (step none (.tileClick (Tile.catTile 0))) (.tileClick (Tile.chaiTile 0)) = some s2 ∧
      step none (.tileClick (Tile.chaiTile 0)) = some s2 ∧
      (Tile.catTile 0).payload ≠ some s2 :=
  ⟨by decide, by decide, by decide,
    second_click_wins (Tile.catTile 0) (Tile.chaiTile 0) (by decide) (by decide) (by decide)⟩

set_option maxRecDepth 100000 in
/-- C7 counterexample: the first two Cat in a Box tiles are distinct
tiles with distinct click payloads (captions `Design 1` and `Design 2`),
yet their load-error handlers substitute the same placeholder graphic,
whose markup embeds only the fixed grid label and contains neither the
first tile's caption nor its image filename; so the placeholder does not
contain the item's identifying label. -/
theorem placeholder_not_identifying :
    Tile.catTile 0 ≠ Tile.catTile 1 ∧
    (Tile.catTile 0).payload ≠ (Tile.catTile 1).payload ∧
    (Tile.catTile 0).errorPlaceholderSvg = (Tile.catTile 1).errorPlaceholderSvg ∧
    (Tile.catTile 0).errorPlaceholderSvg = some (sectionPlaceholderSvg "Cat in a Box") ∧
    (Tile.catTile 0).payload =
      some ⟨"images/Cat in a Box/1.png", "Cat in a Box - Design 1", none⟩ ∧
    ¬ strContains (sectionPlaceholderSvg "Cat in a Box") "Cat in a Box - Design 1" ∧
    ¬ strContains (sectionPlaceholderSvg "Cat in a Box") "1.png" := by
  decide

set_option maxRecDepth 100000 in
/-- C7 amended: on load error every rendered tile substitutes a generated
placeholder that leaves the selection state unchanged and affects no
other tile's rendered source; the placeholder embeds the item's numeric
id (`Image $id`) for main-grid tiles, but for the section grids it embeds
only the grid's fixed label (`Cat in a Box`, `Chai Mahal`,
`Harvest Connect`, `Tool`), shared by every tile of that grid. -/
theorem placeholder_substitution_amended (t : Tile) (h : t.valid) :
    (∀ st : SelState, step st (.imgError t) = st) ∧
    (∀ (errored : Tile → Bool) (t2 : Tile), t2 ≠ t →
      renderSrc (fun x => if x = t then true else errored x) t2 = renderSrc errored t2) ∧
    (∃ svg lbl, t.errorPlaceholderSvg = some svg ∧ t.errorLabel = some lbl ∧
      strContains svg lbl) := by
  refine ⟨fun st => rfl, fun errored t2 hne => by simp [renderSrc, hne], ?_⟩
  cases t with
  | mainTile i =>
      have h2 : i < 2 := h
      interval_cases i
      · exact ⟨mainPlaceholderSvg ⟨1, "porsche 991 poster", "images/porsche.png"⟩,
          "Image 1", by decide, by decide, by decide⟩
      · exact ⟨mainPlaceholderSvg ⟨2, "porsche 991 poster", "images/porsche 2.jpg"⟩,
          "Image 2", by decide, by decide, by decide⟩
  | catTile i =>
      obtain ⟨im, him⟩ : ∃ im, catImgs[i]? = some im := ⟨_, List.getElem?_eq_getElem h⟩
      refine ⟨sectionPlaceholderSvg "Cat in a Box", "Cat in a Box", ?_, ?_, by decide⟩
      · simp [Tile.errorPlaceholderSvg, him]
      · simp [Tile.errorLabel, him]
  | chaiTile i =>
      obtain ⟨im, him⟩ : ∃ im, chaiImgs[i]? = some im := ⟨_, List.getElem?_eq_getElem h⟩
      refine ⟨sectionPlaceholderSvg "Chai Mahal", "Chai Mahal", ?_, ?_, by decide⟩
      · simp [Tile.errorPlaceholderSvg, him]
      · simp [Tile.errorLabel, him]
  | harvestTile i =>
      obtain ⟨im, him⟩ : ∃ im, harvestImgs[i]? = some im := ⟨_, List.getElem?_eq_getElem h⟩
      refine ⟨sectionPlaceholderSvg "Harvest Connect", "Harvest Connect", ?_, ?_, by decide⟩
      · simp [Tile.errorPlaceholderSvg, him]
      · simp [Tile.errorLabel, him]
  | toolTile i =>
      obtain ⟨im, him⟩ : ∃ im, toolImgs[i]? = some im := ⟨_, List.getElem?_eq_getElem h⟩
      refine ⟨toolPlaceholderSvg, "Tool", ?_, ?_, by decide⟩
      · simp [Tile.errorPlaceholderSvg, him]
      · simp [Tile.errorLabel, him]

/-- Witness for the amended C7 at the first Tools tile. -/
theorem placeholder_substitution_amended_witness :
    Tile.valid (Tile.toolTile 0) ∧
    ((∀ st : SelState, step st (.imgError (Tile.toolTile 0)) = st) ∧
     (∀ (errored : Tile → Bool) (t2 : Tile), t2 ≠ Tile.toolTile 0 →
       renderSrc (fun x => if x = Tile.toolTile 0 then true else errored x) t2 =
         renderSrc errored t2) ∧
     (∃ svg lbl, (Tile.toolTile 0).errorPlaceholderSvg = some svg ∧
       (Tile.toolTile 0).errorLabel = some lbl ∧ strContains svg lbl)) :=
  ⟨by decide, placeholder_substitution_amended (Tile.toolTile 0) (by decide)⟩

/-- C8 counterexample: clicking the first main-grid tile stores the whole
catalogue item: the resulting Viewing value carries the catalogue's `id`
field (`some 1`) in addition to the image path and caption, so the
selection does not hold exactly the two display fields. -/
theorem selection_extra_field_counterexample :
    step none (.tileClick (Tile.mainTile 0)) =
      some ⟨"images/porsche.png", "porsche 991 poster", some 1⟩ ∧
    (⟨"images/porsche.png", "porsche 991 poster", some 1⟩ : Sel).id ≠ none := by
  decide

/-- C8 amended: every non-Idle selection holds the image path of one
rendered tile (equal to that tile's declared `<img src>`); selections
made from section tiles are fresh objects holding only the display
fields (`id` is absent), but selections made from main-grid tiles are
the catalogue item itself and also carry its `id` field. -/
theorem selection_fields_amended (t : Tile) (h : t.valid) :
    ∃ s : Sel, t.payload = some s ∧ some s.image = t.declSrc ∧
      (∀ i, t = Tile.mainTile i → ∃ item, items[i]? = some item ∧
        s = ⟨item.image, item.caption, some item.id⟩) ∧
      ((∀ i, t ≠ Tile.mainTile i) → s.id = none) := by
  cases t with
  | mainTile i =>
      obtain ⟨it, hit⟩ : ∃ it, items[i]? = some it := ⟨_, List.getElem?_eq_getElem h⟩
      refine ⟨⟨it.image, it.caption, some it.id⟩,
        by simp [Tile.payload, hit], by simp [Tile.declSrc, hit], ?_, ?_⟩
      · intro j hj
        obtain rfl : i = j := by injection hj
        exact ⟨it, hit, rfl⟩
      · intro hno
        exact absurd rfl (hno i)
  | catTile i =>
      obtain ⟨im, him⟩ : ∃ im, catImgs[i]? = some im := ⟨_, List.getElem?_eq_getElem h⟩
      exact ⟨⟨"images/Cat in a Box/" ++ im, "Cat in a Box - Design " ++ toString (i + 1), none⟩,
        by simp [Tile.payload, him], by simp [Tile.declSrc, him],
        fun j hj => Tile.noConfusion hj, fun _ => rfl⟩
  | chaiTile i =>
      obtain ⟨im, him⟩ : ∃ im, chaiImgs[i]? = some im := ⟨_, List.getElem?_eq_getElem h⟩
      exact ⟨⟨"images/Chai Mahal/" ++ im, "Chai Mahal - Design " ++ toString (i + 1), none⟩,
        by simp [Tile.payload, him], by simp [Tile.declSrc, him],
        fun j hj => Tile.noConfusion hj, fun _ => rfl⟩
  | harvestTile i =>
      obtain ⟨im, him⟩ : ∃ im, harvestImgs[i]? = some im := ⟨_, List.getElem?_eq_getElem h⟩
      exact ⟨⟨"images/Harvest Connect/" ++ im, "Harvest Connect - Screen " ++ toString (i + 1), none⟩,
        by simp [Tile.payload, him], by simp [Tile.declSrc, him],
        fun j hj => Tile.noConfusion hj, fun _ => rfl⟩
  | toolTile i =>
      obtain ⟨im, him⟩ : ∃ im, toolImgs[i]? = some im := ⟨_, List.getElem?_eq_getElem h⟩
      exact ⟨⟨"images/tools/" ++ im, "tool " ++ toString (i + 1), none⟩,
        by simp [Tile.payload, him], by simp [Tile.declSrc, him],
        fun j hj => Tile.noConfusion hj, fun _ => rfl⟩

/-- Witness for the amended C8 at the third Chai Mahal tile. -/
theorem selection_fields_amended_witness :
    Tile.valid (Tile.chaiTile 2) ∧
    ∃ s : Sel, (Tile.chaiTile 2).payload = some s ∧
      some s.image = (Tile.chaiTile 2).declSrc ∧
      (∀ i, Tile.chaiTile 2 = Tile.mainTile i → ∃ item, items[i]? = some item ∧
        s = ⟨item.image, item.caption, some item.id⟩) ∧
      ((∀ i, Tile.chaiTile 2 ≠ Tile.mainTile i) → s.id = none) :=
  ⟨by decide, selection_fields_amended (Tile.chaiTile 2) (by decide)⟩

/-- C9: in every environment the installation either succeeds (no
boundary warning) or its failure is caught by the installation's own
failure boundary, one warning is logged, and the environment is left
unchanged; in both cases `setupMetaMaskStub` returns normally, never
propagating an exception. -/
theorem setup_never_raises (env : Env) :
    (∃ env2, setupBody env = .ok env2 ∧ setupMetaMaskStub env = (env2, 0)) ∨
    (∃ err, setupBody env = .error err ∧ setupMetaMaskStub env = (env, 1)) := by
  cases hb : setupBody env with
  | ok env2 => exact Or.inl ⟨env2, rfl, by simp [setupMetaMaskStub, hb]⟩
  | error err => exact Or.inr ⟨err, rfl, by simp [setupMetaMaskStub, hb]⟩

/-- C10: when a provider global exists but has no request operation, the
shim leaves the whole environment (and so the provider and every one of
its fields) unchanged, and logs nothing. -/
theorem provider_without_request_untouched (env : Env) (p : Provider)
    (h1 : env.ethereum = some p) (h2 : p.request = none) :
    setupMetaMaskStub env = (env, 0) := by
  simp [setupMetaMaskStub, setupBody, h1, h2]

/-- Witness for C10: a request-less provider is left as it is. -/
theorem provider_without_request_untouched_witness :
    setupMetaMaskStub ⟨some ⟨true, none, false⟩, false⟩ =
      (⟨some ⟨true, none, false⟩, false⟩, 0) :=
  provider_without_request_untouched ⟨some ⟨true, none, false⟩, false⟩
    ⟨true, none, false⟩ rfl rfl

end Portfolio
